import Mathlib

/-
Verification of the viva-daemon sample normalization and ingestion pipeline.

The definitions below are a shallow embedding of the Python sources
`viva.py` (ViVa API: classification of raw measurements into canonical
samples) and `vivad.py` (daemon: SQLite storage, callback notification,
history-sync and poll loops).  Machine-level concerns (sockets, SQLite
files, subprocesses, the wall clock) are represented by explicit state
and oracle parameters; everything else follows the source line by line.
-/

namespace Viva

/-- A naive (timezone-less) calendar timestamp, as produced by
`datetime.strptime(s, '%Y-%m-%dT%H:%M:%S')` in `viva.py`. -/
structure NaiveDT where
  year : Int
  month : Int
  day : Int
  hour : Int
  minute : Int
  second : Int
deriving DecidableEq, Repr

/-- Days since 1970-01-01 of the proleptic Gregorian civil date (y, m, d),
the standard civil-from-days arithmetic used to embed `calendar.timegm`. -/
def days_from_civil (y m d : Int) : Int :=
  let y2 := if m ≤ 2 then y - 1 else y
  let era := (if 0 ≤ y2 then y2 else y2 - 399) / 400
  let yoe := y2 - era * 400
  let mp := if m ≤ 2 then m + 9 else m - 3
  let doy := (153 * mp + 2) / 5 + d - 1
  let doe := yoe * 365 + yoe / 4 - yoe / 100 + doy
  era * 146097 + doe - 719468

/-- Embedding of `calendar.timegm` applied to a time tuple: seconds since
the Unix epoch of the tuple read as UTC. -/
def timegm_tuple (dt : NaiveDT) : Int :=
  days_from_civil dt.year dt.month dt.day * 86400
    + dt.hour * 3600 + dt.minute * 60 + dt.second

/-- The UTC offset (seconds) that `viva.py`'s `TZ_CET = pytz.timezone('CET')`
carries when attached with `datetime.replace(tzinfo=TZ_CET)`: pytz's
`DstTzInfo` base instance for the CET zone holds the fixed standard-time
offset +01:00 and `utcoffset` returns it unchanged for every date, with no
daylight-saving adjustment (DST-aware offsets require `localize`, which the
source never calls). -/
def TZ_CET_replace_offset : Int := 3600

/-- Embedding of `timegm(sample.ststamp.utctimetuple())` from
`store_single_sample` in `vivad.py`: `utctimetuple` subtracts the attached
tzinfo's `utcoffset` from the wall-clock fields, and `timegm` converts the
resulting tuple to Unix seconds. -/
def stored_sample_tstamp (dt : NaiveDT) : Int :=
  timegm_tuple dt - TZ_CET_replace_offset

/-- Splits a character list at every occurrence of the separator, the
character-level counterpart of splitting a string on a one-character
separator (used to embed `datetime.strptime` on '%Y-%m-%dT%H:%M:%S'). -/
def splitOnChar (c : Char) : List Char → List (List Char)
  | [] => [[]]
  | x :: xs =>
    let r := splitOnChar c xs
    if x = c then [] :: r
    else
      match r with
      | [] => [[x]]
      | g :: gs => (x :: g) :: gs

/-- Value of a decimal digit character, rejecting non-digits. -/
def digitVal (c : Char) : Option Nat :=
  if 48 ≤ c.toNat ∧ c.toNat ≤ 57 then some (c.toNat - 48) else none

/-- Reads a nonempty list of decimal digit characters as a natural number. -/
def digitsToNat : List Char → Option Nat
  | [] => none
  | cs => go 0 cs
where
  go : Nat → List Char → Option Nat
    | acc, [] => some acc
    | acc, c :: cs =>
      match digitVal c with
      | some v => go (acc * 10 + v) cs
      | none => none

/-- Embedding of `datetime.strptime(s, '%Y-%m-%dT%H:%M:%S')` from `viva.py`
(`VIVA_DATEFORMAT`): parses `YYYY-MM-DDTHH:MM:SS` into a naive timestamp,
failing on any other shape. -/
def strptime (s : String) : Option NaiveDT :=
  match splitOnChar 'T' s.data with
  | [datePart, timePart] =>
    match splitOnChar '-' datePart, splitOnChar ':' timePart with
    | [ys, ms, ds], [hs, is2, ss] =>
      match digitsToNat ys, digitsToNat ms, digitsToNat ds,
            digitsToNat hs, digitsToNat is2, digitsToNat ss with
      | some y, some mo, some d, some h, some mi, some sec =>
        some ⟨(y : Int), (mo : Int), (d : Int), (h : Int), (mi : Int), (sec : Int)⟩
      | _, _, _, _, _, _ => none
    | _, _ => none
  | _ => none

/-- The normalized in-memory sample, from `class Sample` in `viva.py`.
`ststamp` is the CET wall-clock reading (the tzinfo attached by the fetch
functions is always `TZ_CET`, folded into `stored_sample_tstamp`). -/
structure Sample where
  station_id : Int
  station_name : String
  stype : String
  svalue : String
  ststamp : NaiveDT
deriving DecidableEq, Repr

/-- The canonical (type name, unit) → sample type lookup table `SAMPLE_LUT`
from `viva.py`. -/
def SAMPLE_LUT : List ((String × String) × String) :=
  [(("MEDELVIND",        "m/s"),  "AVG_WIND"),
   (("BYVIND",           "m/s"),  "GUST_WIND"),
   (("RIKTNING",         "°"),    "WIND_DIRECTION"),
   (("VATTENTEMPERATUR", "°"),    "WATER_TEMP"),
   (("SIKT",             "m"),    "VISIBILITY"),
   (("LUFTTEMPERATUR",   "°"),    "AIR_TEMP"),
   (("LUFTFUKTIGHET",    "%"),    "AIR_HUMIDITY"),
   (("LUFTTRYCK",        "mbar"), "AIR_PRESSURE"),
   (("VATTENSTÅND",      "cm"),   "WATER_LEVEL"),
   (("STRÖM 2M",         "°"),    "WATER_CURRENT_2M_DIR"),
   (("STRÖM 2M",         "knop"), "WATER_CURRENT_2M_SPEED"),
   (("STRÖM 4M",         "°"),    "WATER_CURRENT_4M_DIR"),
   (("STRÖM 4M",         "knop"), "WATER_CURRENT_4M_SPEED"),
   (("STRÖM 6M",         "°"),    "WATER_CURRENT_6M_DIR"),
   (("STRÖM 6M",         "knop"), "WATER_CURRENT_6M_SPEED"),
   (("STRÖM YTA",        "°"),    "WATER_CURRENT_SURFACE_DIR"),
   (("STRÖM YTA",        "knop"), "WATER_CURRENT_SURFACE_SPEED")]

/-- Dictionary lookup `SAMPLE_LUT[(stype, sunit)]` as used by
`create_sample` (the table's keys are pairwise distinct). -/
def lut_lookup (k : String × String) : Option String :=
  (SAMPLE_LUT.find? (fun e => decide (e.1 = k))).map Prod.snd

/-- Embedding of `create_sample` from `viva.py`: a known (type, unit) pair
yields a `Sample` carrying the mapped canonical type; an unknown pair is
logged and rejected (`return False`, modelled as `none`). -/
def create_sample (station_id : Int) (station_name : String)
    (sunit stype svalue : String) (ststamp : NaiveDT) : Option Sample :=
  match lut_lookup (stype, sunit) with
  | some ct => some ⟨station_id, station_name, ct, svalue, ststamp⟩
  | none => none

/-- Uppercasing of a single character as performed by Python's
`unicode.upper()` on the alphabet occurring in ViVa type names: ASCII
letters plus the Swedish letters å, ä, ö. -/
def pyCharUpper (c : Char) : Char :=
  if c = 'å' then 'Å' else if c = 'ä' then 'Ä' else if c = 'ö' then 'Ö'
  else c.toUpper

/-- Embedding of Python's `.upper()` as applied to raw ViVa type names by
`fetch_station_latest` and `fetch_station_history`. -/
def pyUpper (s : String) : String :=
  ⟨s.data.map pyCharUpper⟩

/-- A row of the `vivad_samples` SQLite table created by
`create_database_tables` in `vivad.py`. -/
structure Row where
  station_id : Int
  station_name : String
  store_tstamp : Int
  sample_tstamp : Int
  sample_type : String
  sample_value : String
deriving DecidableEq, Repr

/-- The column triple subject to the table's
`UNIQUE (station_id, sample_tstamp, sample_type) ON CONFLICT IGNORE`. -/
def rowKey (r : Row) : Int × Int × String :=
  (r.station_id, r.sample_tstamp, r.sample_type)

/-- The key a given in-memory sample produces when stored. -/
def sample_key (s : Sample) : Int × Int × String :=
  (s.station_id, stored_sample_tstamp s.ststamp, s.stype)

/-- State of the SQLite connection: rows of committed transactions, rows
inserted in the currently open transaction, and the wall clock supplying
`datetime.utcnow()` (advancing by one per insert). -/
structure DB where
  committed : List Row
  pending : List Row
  clock : Int
deriving DecidableEq, Repr

/-- Rows visible on the connection (committed plus open transaction);
the uniqueness constraint is checked against these. -/
def dbRows (db : DB) : List Row :=
  db.committed ++ db.pending

/-- The key of a row is present among the given rows. -/
def keyMem (k : Int × Int × String) (rows : List Row) : Prop :=
  ∃ r ∈ rows, rowKey r = k

/-- An `INSERT` honouring `ON CONFLICT IGNORE`: a row whose key triple is
already present is silently dropped, otherwise it joins the open
transaction. -/
def insertRow (db : DB) (r : Row) : DB :=
  if ∃ x ∈ dbRows db, rowKey x = rowKey r then db
  else { db with pending := db.pending ++ [r] }

/-- The row built from a sample by `store_single_sample`
(`store_tstamp` is `timegm(datetime.utcnow().utctimetuple())`). -/
def sample_row (clock : Int) (s : Sample) : Row :=
  ⟨s.station_id, s.station_name, clock, stored_sample_tstamp s.ststamp,
   s.stype, s.svalue⟩

/-- Embedding of `store_single_sample` from `vivad.py`.  `exec` is the
success indicator of `cursor.execute` (a store-level write error makes it
report failure, in which case no row is inserted). -/
def store_single_sample (exec2 : Row → Bool) (db : DB) (s : Sample) :
    Bool × DB :=
  let r := sample_row db.clock s
  let db2 : DB := { db with clock := db.clock + 1 }
  if exec2 r then (true, insertRow db2 r) else (false, db2)

/-- `db.rollback()`: discards the open transaction. -/
def rollbackDB (db : DB) : DB :=
  { db with pending := [] }

/-- `db.commit()`: makes the open transaction durable. -/
def commitDB (db : DB) : DB :=
  { db with committed := db.committed ++ db.pending, pending := [] }

/-- Embedding of `store_samples` from `vivad.py`: insert each sample in
order; on the first failing insert roll the transaction back and report
failure, otherwise commit and report success. -/
def store_samples (exec2 : Row → Bool) (db : DB) : List Sample → Bool × DB
  | [] => (true, commitDB db)
  | s :: rest =>
    let res := store_single_sample exec2 db s
    if res.1 then store_samples exec2 res.2 rest
    else (false, rollbackDB res.2)

/-- Outcome of spawning the callback executable (`subprocess.call` either
returns an exit code or raises). -/
inductive CallOutcome where
  | ret (code : Int)
  | exn (msg : String)
deriving DecidableEq, Repr

/-- Embedding of `run_callback` from `vivad.py`: when a callback is
configured, spawn it with the instance argument appended; a nonzero exit
status or a raised exception is logged (returned log lines) and swallowed. -/
def run_callback (call : List String → CallOutcome) (callback : Option String)
    (inst : Option String) : List String :=
  match callback with
  | none => []
  | some cb =>
    let args := match inst with
      | none => [cb]
      | some i => [cb, i]
    match call args with
    | .ret code =>
      if code = 0 then []
      else ["Callback " ++ cb ++ " failed " ++ toString code]
    | .exn msg => ["Callback " ++ cb ++ " failed: " ++ msg]

/-- One station's body of the daemon loops in `vivad.py` `__main__`:
`if samples: if store_samples(db, samples): run_callback(callback,
samples[0].station_name)`.  `fetched` is the fetch result (`none` models
the `False` returned by `fetch_station_latest` on failure; an empty list
is falsy as well).  Returns the new store state, the station names passed
to the callback, and the callback's log lines. -/
def station_step (call : List String → CallOutcome) (callback : Option String)
    (exec2 : Row → Bool) (db : DB) (fetched : Option (List Sample)) :
    DB × List String × List String :=
  match fetched with
  | none => (db, [], [])
  | some [] => (db, [], [])
  | some (s :: rest) =>
    let res := store_samples exec2 db (s :: rest)
    if res.1 then
      (res.2, [s.station_name], run_callback call callback (some s.station_name))
    else (res.2, [], [])

/-- One round of the poll loop in `vivad.py` `__main__` over the configured
stations.  The fetch oracle returns `Except.error` when
`fetch_station_latest` raises (a transport error out of `urllib2`/`etree`,
caught nowhere in the loop, hence propagated), and `Except.ok` with the
function's return value otherwise. -/
def poll_round (fetchO : Int → Except String (Option (List Sample)))
    (call : List String → CallOutcome) (callback : Option String)
    (exec2 : Row → Bool) : DB → List Int → Except String (DB × List String)
  | db, [] => Except.ok (db, [])
  | db, sid :: rest =>
    match fetchO sid with
    | .error e => .error e
    | .ok fetched =>
      let st := station_step call callback exec2 db fetched
      match poll_round fetchO call callback exec2 st.1 rest with
      | .error e => .error e
      | .ok (dbf, ns) => .ok (dbf, st.2.1 ++ ns)

/-- The history-sync pass of `vivad.py` `__main__` (`-s` mode) over the
configured stations.  `fetch_station_history` returns a sample list (it has
no `False` path) or raises, modelled by the oracle's `Except.error`. -/
def sync_run (fetchH : Int → Except String (List Sample))
    (call : List String → CallOutcome) (callback : Option String)
    (exec2 : Row → Bool) : DB → List Int → Except String (DB × List String)
  | db, [] => Except.ok (db, [])
  | db, sid :: rest =>
    match fetchH sid with
    | .error e => .error e
    | .ok samples =>
      let st := station_step call callback exec2 db (some samples)
      match sync_run fetchH call callback exec2 st.1 rest with
      | .error e => .error e
      | .ok (dbf, ns) => .ok (dbf, st.2.1 ++ ns)

/-- End-of-round cadence decision of the poll loop in `vivad.py`: given the
configured pollrate and the measured round duration, report whether the
too-slow warning is printed and how long `time.sleep` is told to sleep
(`none` when the loop proceeds without sleeping). -/
def poll_cadence (pollrate time_elapsed : ℚ) : Bool × Option ℚ :=
  if time_elapsed > pollrate then (true, none)
  else (false, some (pollrate - time_elapsed))

/-- A raw sample element of a GetViVaDataT response (attributes `Typ`,
`Varde`, `Enhet`, `Tid` read by `fetch_station_latest`; `Tid` already
parsed with `strptime`). -/
structure LatestElement where
  typ : String
  varde : String
  enhet : String
  tid : NaiveDT
deriving DecidableEq, Repr

/-- The parts of a parsed GetViVaDataT response that
`fetch_station_latest` inspects: the xpath node lists for the
`Felmeddelande` error indicator, the `PlatsNamn` station name, and the
`ViVaDataT` sample elements. -/
structure LatestResponse where
  errormsg : List String
  name : List String
  elements : List LatestElement
deriving DecidableEq, Repr

/-- Classification step of the latest-fetch loop in `viva.py`:
`create_sample(station_id, station_name, sample_unit, element.get("Typ").upper(), ...)`. -/
def latest_sample_of (station_id : Int) (station_name : String)
    (e : LatestElement) : Option Sample :=
  create_sample station_id station_name e.enhet (pyUpper e.typ) e.varde e.tid

/-- Embedding of `fetch_station_latest` from `viva.py`, given the parsed
response: a reported error, a missing station name, or an empty element
list each yield `False` (`none`); otherwise the elements are classified in
order and the rejected ones skipped. -/
def fetch_station_latest (station_id : Int) (resp : LatestResponse) :
    Option (List Sample) :=
  match resp.errormsg with
  | _ :: _ => none
  | [] =>
    match resp.name with
    | [] => none
    | station_name :: _ =>
      match resp.elements with
      | [] => none
      | e :: els =>
        some ((e :: els).filterMap (latest_sample_of station_id station_name))

/-- Weekday of a civil date, 0 for Sunday (1970-01-01 was a Thursday). -/
def weekday0Sun (y m d : Int) : Int :=
  (days_from_civil y m d + 4) % 7

/-- Day of month of the last Sunday of a 31-day month. -/
def last_sunday (y m : Int) : Int :=
  31 - weekday0Sun y m 31

/-- Whether a CET wall-clock reading falls in the daylight-saving (CEST)
part of its year: from 02:00 local on the last Sunday of March up to 03:00
local on the last Sunday of October (the European Union rule the tz
database zone CET encodes). -/
def cet_is_dst (dt : NaiveDT) : Bool :=
  let t := timegm_tuple dt
  let dstStart := timegm_tuple ⟨dt.year, 3, last_sunday dt.year 3, 2, 0, 0⟩
  let dstEnd := timegm_tuple ⟨dt.year, 10, last_sunday dt.year 10, 3, 0, 0⟩
  decide (dstStart ≤ t ∧ t < dstEnd)

/-- Second definition for comparison, following the specification's words
rather than the source: the UTC offset actually in force in the Central
European Time zone at the given wall-clock reading (+02:00 during daylight
saving, +01:00 otherwise). -/
def spec_cet_utc_offset (dt : NaiveDT) : Int :=
  if cet_is_dst dt then 7200 else 3600

/-- Second definition for comparison, following the specification's words:
the UTC epoch seconds of the instant whose Central European Time wall-clock
reading is the given timestamp. -/
def spec_cet_to_utc_epoch (dt : NaiveDT) : Int :=
  timegm_tuple dt - spec_cet_utc_offset dt

lemma rowKey_sample_row (c : Int) (s : Sample) :
    rowKey (sample_row c s) = sample_key s := rfl

lemma insertRow_committed (db : DB) (r : Row) :
    (insertRow db r).committed = db.committed := by
  unfold insertRow; split <;> rfl

lemma keyMem_insertRow_self (db : DB) (r : Row) :
    keyMem (rowKey r) (dbRows (insertRow db r)) := by
  by_cases h : ∃ x ∈ dbRows db, rowKey x = rowKey r
  · rw [insertRow, if_pos h]; exact h
  · rw [insertRow, if_neg h]
    refine ⟨r, ?_, rfl⟩
    simp [dbRows]

lemma keyMem_insertRow_mono (db : DB) (r : Row) (k : Int × Int × String)
    (h : keyMem k (dbRows db)) : keyMem k (dbRows (insertRow db r)) := by
  unfold insertRow
  split
  · exact h
  · obtain ⟨x, hx, hk⟩ := h
    refine ⟨x, ?_, hk⟩
    simp only [dbRows, List.mem_append] at hx ⊢
    tauto

lemma insertRow_conflict (db : DB) (r : Row)
    (h : keyMem (rowKey r) (dbRows db)) : insertRow db r = db := by
  rw [insertRow,
    if_pos (show ∃ x ∈ dbRows db, rowKey x = rowKey r from h)]

lemma store_single_committed (exec2 : Row → Bool) (db : DB) (s : Sample) :
    ((store_single_sample exec2 db s).2).committed = db.committed := by
  simp only [store_single_sample]
  split
  · exact insertRow_committed _ _
  · rfl

lemma store_single_success (exec2 : Row → Bool) (db : DB) (s : Sample)
    (h : (store_single_sample exec2 db s).1 = true) :
    (∀ k, keyMem k (dbRows db) →
        keyMem k (dbRows (store_single_sample exec2 db s).2)) ∧
    keyMem (sample_key s) (dbRows (store_single_sample exec2 db s).2) := by
  by_cases he : exec2 (sample_row db.clock s) = true
  · simp only [store_single_sample, if_pos he]
    constructor
    · intro k hk
      exact keyMem_insertRow_mono _ _ _ hk
    · have := keyMem_insertRow_self { db with clock := db.clock + 1 }
        (sample_row db.clock s)
      rwa [rowKey_sample_row] at this
  · simp only [store_single_sample, if_neg he] at h
    exact absurd h (by simp)

lemma dbRows_commitDB (db : DB) : dbRows (commitDB db) = dbRows db := by
  simp [dbRows, commitDB]

lemma store_samples_pending (exec2 : Row → Bool) (samples : List Sample) :
    ∀ db : DB, ((store_samples exec2 db samples).2).pending = [] := by
  induction samples with
  | nil => intro db; rfl
  | cons s rest ih =>
    intro db
    simp only [store_samples]
    split
    · exact ih _
    · rfl

lemma store_samples_fail (exec2 : Row → Bool) (samples : List Sample) :
    ∀ db : DB, (store_samples exec2 db samples).1 = false →
      ((store_samples exec2 db samples).2).committed = db.committed := by
  induction samples with
  | nil => intro db h; exact absurd h (by simp [store_samples])
  | cons s rest ih =>
    intro db h
    by_cases hc : (store_single_sample exec2 db s).1 = true
    · simp only [store_samples, if_pos hc] at h ⊢
      rw [ih _ h, store_single_committed]
    · simp only [store_samples, if_neg hc]
      rw [show rollbackDB (store_single_sample exec2 db s).2
            = rollbackDB (store_single_sample exec2 db s).2 from rfl]
      show (rollbackDB (store_single_sample exec2 db s).2).committed = db.committed
      rw [show (rollbackDB (store_single_sample exec2 db s).2).committed
            = ((store_single_sample exec2 db s).2).committed from rfl]
      exact store_single_committed _ _ _

lemma store_samples_success (exec2 : Row → Bool) (samples : List Sample) :
    ∀ db : DB, (store_samples exec2 db samples).1 = true →
      (∀ k, keyMem k (dbRows db) →
          keyMem k (dbRows (store_samples exec2 db samples).2)) ∧
      (∀ s ∈ samples, keyMem (sample_key s)
          (dbRows (store_samples exec2 db samples).2)) := by
  induction samples with
  | nil =>
    intro db _
    refine ⟨fun k hk => ?_, fun s hs => absurd hs (List.not_mem_nil s)⟩
    show keyMem k (dbRows (commitDB db))
    rwa [dbRows_commitDB]
  | cons s rest ih =>
    intro db h
    by_cases hc : (store_single_sample exec2 db s).1 = true
    · simp only [store_samples, if_pos hc] at h ⊢
      obtain ⟨hmono, hkey⟩ := store_single_success exec2 db s hc
      obtain ⟨ihmono, ihmem⟩ := ih _ h
      refine ⟨fun k hk => ihmono k (hmono k hk), ?_⟩
      intro t ht
      rcases List.mem_cons.mp ht with rfl | ht2
      · exact ihmono _ hkey
      · exact ihmem t ht2
    · simp only [store_samples, if_neg hc] at h
      exact absurd h (by simp)

lemma store_samples_all_ok (exec2 : Row → Bool) (hexec : ∀ r, exec2 r = true)
    (samples : List Sample) : ∀ db : DB,
      (store_samples exec2 db samples).1 = true := by
  induction samples with
  | nil => intro db; rfl
  | cons s rest ih =>
    intro db
    have hc : (store_single_sample exec2 db s).1 = true := by
      simp only [store_single_sample, hexec, if_pos]
    simp only [store_samples, if_pos hc]
    exact ih _

lemma store_samples_noop (exec2 : Row → Bool) (hexec : ∀ r, exec2 r = true)
    (samples : List Sample) : ∀ db : DB,
      (∀ s ∈ samples, keyMem (sample_key s) (dbRows db)) →
      dbRows (store_samples exec2 db samples).2 = dbRows db := by
  induction samples with
  | nil => intro db _; exact dbRows_commitDB db
  | cons s rest ih =>
    intro db hall
    have he : exec2 (sample_row db.clock s) = true := hexec _
    have hc : (store_single_sample exec2 db s).1 = true := by
      simp only [store_single_sample, he, if_pos]
    simp only [store_samples, if_pos hc]
    have hkey : keyMem (rowKey (sample_row db.clock s))
        (dbRows { db with clock := db.clock + 1 }) := by
      rw [rowKey_sample_row]
      exact hall s (List.mem_cons_self s rest)
    have hins : (store_single_sample exec2 db s).2 =
        { db with clock := db.clock + 1 } := by
      simp only [store_single_sample, he, if_pos]
      exact insertRow_conflict _ _ hkey
    rw [hins]
    have : dbRows { db with clock := db.clock + 1 } = dbRows db := rfl
    rw [ih _ (fun t ht => by rw [this]; exact hall t (List.mem_cons_of_mem s ht)),
        this]

lemma create_sample_eq (sid : Int) (sname sunit stype sv : String)
    (ts : NaiveDT) :
    create_sample sid sname sunit stype sv ts
      = (lut_lookup (stype, sunit)).map
          (fun ct => ⟨sid, sname, ct, sv, ts⟩) := by
  unfold create_sample
  cases lut_lookup (stype, sunit) <;> rfl

lemma lut_lookup_none (stype sunit : String)
    (h : (stype, sunit) ∉ SAMPLE_LUT.map Prod.fst) :
    lut_lookup (stype, sunit) = none := by
  unfold lut_lookup
  cases hf : SAMPLE_LUT.find? (fun e => decide (e.1 = (stype, sunit))) with
  | none => rfl
  | some e =>
    exfalso
    have h1 : e.1 = (stype, sunit) := by
      have := List.find?_some hf
      simpa using this
    exact h (h1 ▸ List.mem_map_of_mem Prod.fst (List.mem_of_find?_eq_some hf))

lemma lut_lookup_mem (k : String × String) (ct : String)
    (h : lut_lookup k = some ct) : ct ∈ SAMPLE_LUT.map Prod.snd := by
  unfold lut_lookup at h
  cases hf : SAMPLE_LUT.find? (fun e => decide (e.1 = k)) with
  | none => rw [hf] at h; simp at h
  | some e =>
    rw [hf] at h
    have h2 : e.2 = ct := by simpa using h
    exact h2 ▸ List.mem_map_of_mem Prod.snd (List.mem_of_find?_eq_some hf)

/-- C1: for every (type name, unit) pair in `SAMPLE_LUT`, `create_sample`
builds a `Sample` whose type is exactly the mapped canonical type; for any
pair outside the table it returns the rejection value `none` (never
throws — it is a total function); and every `Sample` it ever constructs
carries a type from the closed canonical set (the table's value column). -/
theorem create_sample_classification :
    (∀ p ∈ SAMPLE_LUT, ∀ (sid : Int) (sname sv : String) (ts : NaiveDT),
        create_sample sid sname p.1.2 p.1.1 sv ts
          = some ⟨sid, sname, p.2, sv, ts⟩) ∧
    (∀ stype sunit : String, (stype, sunit) ∉ SAMPLE_LUT.map Prod.fst →
        ∀ (sid : Int) (sname sv : String) (ts : NaiveDT),
          create_sample sid sname sunit stype sv ts = none) ∧
    (∀ (sid : Int) (sname sunit stype sv : String) (ts : NaiveDT)
        (smp : Sample),
        create_sample sid sname sunit stype sv ts = some smp →
        smp.stype ∈ SAMPLE_LUT.map Prod.snd) := by
  refine ⟨?_, ?_, ?_⟩
  · intro p hp sid sname sv ts
    fin_cases hp <;> rfl
  · intro stype sunit hnot sid sname sv ts
    rw [create_sample_eq, lut_lookup_none stype sunit hnot]
    rfl
  · intro sid sname sunit stype sv ts smp h
    rw [create_sample_eq] at h
    cases hl : lut_lookup (stype, sunit) with
    | none => rw [hl] at h; simp at h
    | some ct =>
      rw [hl] at h
      have h3 : smp.stype = ct := by
        have : (⟨sid, sname, ct, sv, ts⟩ : Sample) = smp := by simpa using h
        rw [← this]
      exact h3 ▸ lut_lookup_mem (stype, sunit) ct hl

/-- Witness for C1 at concrete inputs: the (MEDELVIND, m/s) table entry
classifies to AVG_WIND, and an unknown pair is rejected. -/
theorem create_sample_classification_witness :
    create_sample 1 "Marviken" "m/s" "MEDELVIND" "5.0" ⟨2014, 5, 1, 10, 0, 0⟩
      = some ⟨1, "Marviken", "AVG_WIND", "5.0", ⟨2014, 5, 1, 10, 0, 0⟩⟩ ∧
    create_sample 1 "Marviken" "m/s" "OKÄND" "5.0" ⟨2014, 5, 1, 10, 0, 0⟩
      = none :=
  ⟨create_sample_classification.1 (("MEDELVIND", "m/s"), "AVG_WIND")
      (by decide) 1 "Marviken" "5.0" ⟨2014, 5, 1, 10, 0, 0⟩,
   create_sample_classification.2.1 "OKÄND" "m/s" (by decide)
      1 "Marviken" "5.0" ⟨2014, 5, 1, 10, 0, 0⟩⟩

/-- C2: writing the same sample batch twice leaves the store with exactly
the rows of writing it once, because an insert whose
(station_id, sample_tstamp, sample_type) triple is already present is
silently dropped by the uniqueness constraint. -/
theorem store_samples_idempotent (exec2 : Row → Bool) (db : DB)
    (samples : List Sample) (hexec : ∀ r, exec2 r = true) :
    dbRows (store_samples exec2 (store_samples exec2 db samples).2 samples).2
      = dbRows (store_samples exec2 db samples).2 := by
  have h1 := store_samples_all_ok exec2 hexec samples db
  have h2 := (store_samples_success exec2 samples db h1).2
  exact store_samples_noop exec2 hexec samples _ h2

/-- Witness for C2 at a concrete batch: writing a two-sample batch twice
equals writing it once. -/
theorem store_samples_idempotent_witness :
    dbRows (store_samples (fun _ => true)
      (store_samples (fun _ => true) ⟨[], [], 0⟩
        [⟨1, "S", "AVG_WIND", "5.0", ⟨2014, 5, 1, 10, 0, 0⟩⟩,
         ⟨1, "S", "GUST_WIND", "7.1", ⟨2014, 5, 1, 10, 0, 0⟩⟩]).2
      [⟨1, "S", "AVG_WIND", "5.0", ⟨2014, 5, 1, 10, 0, 0⟩⟩,
       ⟨1, "S", "GUST_WIND", "7.1", ⟨2014, 5, 1, 10, 0, 0⟩⟩]).2
    = dbRows (store_samples (fun _ => true) ⟨[], [], 0⟩
      [⟨1, "S", "AVG_WIND", "5.0", ⟨2014, 5, 1, 10, 0, 0⟩⟩,
       ⟨1, "S", "GUST_WIND", "7.1", ⟨2014, 5, 1, 10, 0, 0⟩⟩]).2 :=
  store_samples_idempotent (fun _ => true) ⟨[], [], 0⟩
    [⟨1, "S", "AVG_WIND", "5.0", ⟨2014, 5, 1, 10, 0, 0⟩⟩,
     ⟨1, "S", "GUST_WIND", "7.1", ⟨2014, 5, 1, 10, 0, 0⟩⟩]
    (fun _ => rfl)

/-- C3: `store_samples` is atomic.  Starting from a store with no open
transaction, either the call reports failure and the visible rows are
exactly the rows before the call (the batch — any strict prefix included —
is rolled back), or it reports success, leaves no transaction open, and
every sample of the batch has its key durably present among the committed
rows (duplicates absorbed by the uniqueness constraint). -/
theorem store_samples_atomic (exec2 : Row → Bool) (db : DB)
    (samples : List Sample) (hp : db.pending = []) :
    ((store_samples exec2 db samples).1 = false →
        dbRows (store_samples exec2 db samples).2 = dbRows db) ∧
    ((store_samples exec2 db samples).1 = true →
        ((store_samples exec2 db samples).2).pending = [] ∧
        ∀ s ∈ samples, keyMem (sample_key s)
          (((store_samples exec2 db samples).2).committed)) := by
  constructor
  · intro h
    have hpend := store_samples_pending exec2 samples db
    have hcomm := store_samples_fail exec2 samples db h
    simp [dbRows, hpend, hcomm, hp]
  · intro h
    refine ⟨store_samples_pending exec2 samples db, ?_⟩
    intro s hs
    have := (store_samples_success exec2 samples db h).2 s hs
    rwa [dbRows, store_samples_pending exec2 samples db,
      List.append_nil] at this

/-- Witness for C3 at concrete inputs: a failing insert leaves the store
unchanged, and an all-successful batch commits every sample's key. -/
theorem store_samples_atomic_witness :
    dbRows (store_samples (fun _ => false) ⟨[], [], 0⟩
      [⟨1, "S", "AVG_WIND", "5.0", ⟨2014, 5, 1, 10, 0, 0⟩⟩]).2
      = dbRows ⟨[], [], 0⟩ ∧
    ∀ s ∈ [⟨1, "S", "AVG_WIND", "5.0", ⟨2014, 5, 1, 10, 0, 0⟩⟩],
      keyMem (sample_key s)
        ((store_samples (fun _ => true) (⟨[], [], 0⟩ : DB)
          [⟨1, "S", "AVG_WIND", "5.0", ⟨2014, 5, 1, 10, 0, 0⟩⟩]).2).committed :=
  ⟨(store_samples_atomic (fun _ => false) ⟨[], [], 0⟩
      [⟨1, "S", "AVG_WIND", "5.0", ⟨2014, 5, 1, 10, 0, 0⟩⟩] rfl).1 rfl,
   ((store_samples_atomic (fun _ => true) ⟨[], [], 0⟩
      [⟨1, "S", "AVG_WIND", "5.0", ⟨2014, 5, 1, 10, 0, 0⟩⟩] rfl).2 rfl).2⟩

/-- C10: the batch-write called with an empty sample list performs no
inserts, commits the (empty) transaction, reports success, and returns the
store exactly as it was. -/
theorem store_samples_empty_batch (exec2 : Row → Bool) (db : DB)
    (hp : db.pending = []) : store_samples exec2 db [] = (true, db) := by
  have hc : commitDB db = db := by
    cases db with
    | mk c p k => cases hp; simp [commitDB]
  show (true, commitDB db) = (true, db)
  rw [hc]

/-- Witness for C10: the empty batch leaves a concrete store untouched. -/
theorem store_samples_empty_batch_witness :
    store_samples (fun _ => true)
      (⟨[⟨1, "S", 0, 1398934800, "AVG_WIND", "5.0"⟩], [], 3⟩ : DB) [] =
    (true, ⟨[⟨1, "S", 0, 1398934800, "AVG_WIND", "5.0"⟩], [], 3⟩) :=
  store_samples_empty_batch (fun _ => true)
    ⟨[⟨1, "S", 0, 1398934800, "AVG_WIND", "5.0"⟩], [], 3⟩ rfl

/-- C4 counterexample: at the boundary round duration T = I (here 60 s
elapsed against a 60 s pollrate) the claim demands a warning and no sleep,
but the loop's strict comparison `time_elapsed > pollrate` takes the quiet
branch and sleeps 0 seconds — no warning is emitted. -/
theorem poll_cadence_boundary :
    (60 : ℚ) ≥ 60 ∧ poll_cadence 60 60 = (false, some 0) ∧
    poll_cadence 60 60 ≠ (true, none) := by
  refine ⟨le_refl _, ?_, ?_⟩ <;> norm_num [poll_cadence]

/-- C4 (amended): a round of duration T against interval I sleeps exactly
I − T without warning when T < I, sleeps zero seconds without warning when
T = I, and only when T strictly exceeds I does the loop warn and start the
next round with no sleep. -/
theorem poll_cadence_spec (pollrate time_elapsed : ℚ) :
    (time_elapsed < pollrate →
        poll_cadence pollrate time_elapsed
          = (false, some (pollrate - time_elapsed))) ∧
    (time_elapsed = pollrate →
        poll_cadence pollrate time_elapsed = (false, some 0)) ∧
    (pollrate < time_elapsed →
        poll_cadence pollrate time_elapsed = (true, none)) := by
  refine ⟨fun h => ?_, fun h => ?_, fun h => ?_⟩
  · rw [poll_cadence, if_neg (not_lt.mpr h.le)]
  · subst h
    rw [poll_cadence, if_neg (lt_irrefl _), sub_self]
  · rw [poll_cadence, if_pos h]

/-- Witness for C4 (amended) at concrete durations 45 s, 60 s and 75 s
against a 60 s pollrate. -/
theorem poll_cadence_spec_witness :
    poll_cadence (60 : ℚ) 45 = (false, some (60 - 45)) ∧
    poll_cadence (60 : ℚ) 60 = (false, some 0) ∧
    poll_cadence (60 : ℚ) 75 = (true, none) :=
  ⟨(poll_cadence_spec 60 45).1 (by norm_num),
   (poll_cadence_spec 60 60).2.1 rfl,
   (poll_cadence_spec 60 75).2.2 (by norm_num)⟩

/-- C6: the raw timestamp "2014-05-01T10:00:00" denotes a Central European
wall clock in the daylight-saving period (CEST, UTC+2), whose UTC epoch is
1398931200; the store path `timegm(ststamp.utctimetuple())` with the tzinfo
attached via `replace(tzinfo=TZ_CET)` subtracts pytz's fixed +1 h default
offset and stores 1398934800 instead — one hour off the correct instant. -/
theorem cet_conversion_bug :
    (strptime "2014-05-01T10:00:00").map stored_sample_tstamp
      = some 1398934800 ∧
    (strptime "2014-05-01T10:00:00").map spec_cet_to_utc_epoch
      = some 1398931200 ∧
    stored_sample_tstamp ⟨2014, 5, 1, 10, 0, 0⟩
      ≠ spec_cet_to_utc_epoch ⟨2014, 5, 1, 10, 0, 0⟩ :=
  ⟨by decide, by decide, by decide⟩

/-- C8: classification as performed by the fetch pipeline (which uppercases
the raw type name before the table lookup) is case-insensitive — for every
unit, value, station and timestamp, a lowercase "medelvind" classifies
exactly as "MEDELVIND". -/
theorem classify_case_insensitive (sid : Int) (sname sv u : String)
    (ts : NaiveDT) :
    latest_sample_of sid sname ⟨"medelvind", sv, u, ts⟩ =
    latest_sample_of sid sname ⟨"MEDELVIND", sv, u, ts⟩ := rfl

/-- C7: a latest fetch whose response carries a service-level error
indicator or omits the station name is a total failure: zero samples are
produced (the fetch returns the failure value `none`), the poll step for
that station stores nothing and leaves the store untouched, and the
failure value is distinguishable from a successful fetch classifying to
zero samples (`some []`). -/
theorem latest_fetch_failure (sid : Int) (resp : LatestResponse)
    (h : resp.errormsg ≠ [] ∨ resp.name = [])
    (call : List String → CallOutcome) (callback : Option String)
    (exec2 : Row → Bool) (db : DB) :
    fetch_station_latest sid resp = none ∧
    fetch_station_latest sid resp ≠ some [] ∧
    station_step call callback exec2 db (fetch_station_latest sid resp)
      = (db, [], []) := by
  have hnone : fetch_station_latest sid resp = none := by
    rcases resp with ⟨em, nm, els⟩
    rcases h with h | h
    · cases em with
      | nil => exact absurd rfl h
      | cons a as => rfl
    · cases em with
      | nil => cases h; rfl
      | cons a as => rfl
  refine ⟨hnone, by rw [hnone]; simp, by rw [hnone]; rfl⟩

/-- Witness for C7 at a concrete errored response and a concrete
name-less response. -/
theorem latest_fetch_failure_witness :
    fetch_station_latest 33 ⟨["Ingen data"], [], []⟩ = none ∧
    fetch_station_latest 33 ⟨["Ingen data"], [], []⟩ ≠ some [] ∧
    station_step (fun _ => .ret 0) none (fun _ => true) ⟨[], [], 0⟩
      (fetch_station_latest 33 ⟨["Ingen data"], [], []⟩)
      = (⟨[], [], 0⟩, [], []) :=
  latest_fetch_failure 33 ⟨["Ingen data"], [], []⟩ (Or.inl (by decide))
    (fun _ => .ret 0) none (fun _ => true) ⟨[], [], 0⟩

/-- C9: the notifier callback is invoked exactly when a non-empty fetched
batch is successfully written, with the (first sample's) station name as
argument; the scheduler-visible outcome of the step (store state and
notification) does not depend on the callback's behaviour; and a nonzero
exit status or a raised exception of the callback is logged, never
propagated. -/
theorem notifier_contract :
    (∀ (call : List String → CallOutcome) (callback : Option String)
        (exec2 : Row → Bool) (db : DB) (fetched : Option (List Sample)),
        (station_step call callback exec2 db fetched).2.1 =
          match fetched with
          | some (s :: rest) =>
            if (store_samples exec2 db (s :: rest)).1 then [s.station_name]
            else []
          | _ => []) ∧
    (∀ (call call2 : List String → CallOutcome) (callback : Option String)
        (exec2 : Row → Bool) (db : DB) (fetched : Option (List Sample)),
        (station_step call callback exec2 db fetched).1
          = (station_step call2 callback exec2 db fetched).1 ∧
        (station_step call callback exec2 db fetched).2.1
          = (station_step call2 callback exec2 db fetched).2.1) ∧
    (∀ (cb : String) (inst : Option String) (code : Int), code ≠ 0 →
        run_callback (fun _ => .ret code) (some cb) inst ≠ []) ∧
    (∀ (cb : String) (inst : Option String) (msg : String),
        run_callback (fun _ => .exn msg) (some cb) inst ≠ []) := by
  refine ⟨?_, ?_, ?_, ?_⟩
  · intro call callback exec2 db fetched
    match fetched with
    | none => rfl
    | some [] => rfl
    | some (s :: rest) =>
      by_cases hq : (store_samples exec2 db (s :: rest)).1 = true <;>
        simp [station_step, hq]
  · intro call call2 callback exec2 db fetched
    match fetched with
    | none => exact ⟨rfl, rfl⟩
    | some [] => exact ⟨rfl, rfl⟩
    | some (s :: rest) =>
      by_cases hq : (store_samples exec2 db (s :: rest)).1 = true <;>
        constructor <;> simp [station_step, hq]
  · intro cb inst code hcode
    cases inst <;> simp [run_callback, hcode]
  · intro cb inst msg
    cases inst <;> simp [run_callback]

/-- Witness for C9 at a concrete failing callback exit status. -/
theorem notifier_contract_witness :
    run_callback (fun _ => .ret 1) (some "notify.sh") (some "Marviken")
      ≠ [] :=
  notifier_contract.2.2.1 "notify.sh" (some "Marviken") 1 (by decide)

/-- C5 counterexample: a transport-level failure (an exception out of the
fetch) while polling the first of two stations is not contained — the poll
round aborts with the propagated error instead of continuing with the
remaining station and completing. -/
theorem error_containment_counterexample :
    poll_round (fun _ => .error "URLError") (fun _ => .ret 0) none
      (fun _ => true) ⟨[], [], 0⟩ [1, 2] = .error "URLError" ∧
    ¬ ∃ out, poll_round (fun _ => .error "URLError") (fun _ => .ret 0) none
      (fun _ => true) ⟨[], [], 0⟩ [1, 2] = .ok out := by
  refine ⟨rfl, ?_⟩
  rintro ⟨out, h⟩
  rw [show poll_round (fun _ => .error "URLError") (fun _ => .ret 0) none
      (fun _ => true) (⟨[], [], 0⟩ : DB) [1, 2] = .error "URLError" from rfl]
    at h
  exact Except.noConfusion h

/-- C5 (amended): station-level failures (the fetch returning its failure
marker or zero samples) and store-level write failures are contained per
station — with a fetch that never raises, both the poll round and the
history-sync run always complete over all configured stations, for every
store behaviour; but a transport-level exception is not caught and
terminates the round (and, in the daemon, the process). -/
theorem error_containment_amended
    (fetchO : Int → Except String (Option (List Sample)))
    (fetchH : Int → Except String (List Sample))
    (call : List String → CallOutcome) (callback : Option String)
    (exec2 : Row → Bool)
    (hO : ∀ sid, ∃ v, fetchO sid = Except.ok v)
    (hH : ∀ sid, ∃ v, fetchH sid = Except.ok v)
    (stations : List Int) (db : DB) :
    (∃ out, poll_round fetchO call callback exec2 db stations
        = Except.ok out) ∧
    (∃ out, sync_run fetchH call callback exec2 db stations
        = Except.ok out) := by
  induction stations generalizing db with
  | nil => exact ⟨⟨(db, []), rfl⟩, ⟨(db, []), rfl⟩⟩
  | cons sid rest ih =>
    constructor
    · obtain ⟨v, hv⟩ := hO sid
      obtain ⟨⟨dbf, ns⟩, hrec⟩ :=
        (ih (station_step call callback exec2 db v).1).1
      refine ⟨(dbf, (station_step call callback exec2 db v).2.1 ++ ns), ?_⟩
      simp only [poll_round, hv, hrec]
    · obtain ⟨w, hw⟩ := hH sid
      obtain ⟨⟨dbf, ns⟩, hrec⟩ :=
        (ih (station_step call callback exec2 db (some w)).1).2
      refine ⟨(dbf, (station_step call callback exec2 db (some w)).2.1 ++ ns),
        ?_⟩
      simp only [sync_run, hw, hrec]

/-- Witness for C5 (amended) with concrete non-raising fetch oracles over
two stations. -/
theorem error_containment_amended_witness :
    (∃ out, poll_round (fun _ => Except.ok none) (fun _ => .ret 0) none
        (fun _ => true) ⟨[], [], 0⟩ [33, 34] = Except.ok out) ∧
    (∃ out, sync_run (fun _ => Except.ok []) (fun _ => .ret 0) none
        (fun _ => true) ⟨[], [], 0⟩ [33, 34] = Except.ok out) :=
  error_containment_amended (fun _ => Except.ok none) (fun _ => Except.ok [])
    (fun _ => .ret 0) none (fun _ => true)
    (fun _ => ⟨none, rfl⟩) (fun _ => ⟨[], rfl⟩) [33, 34] ⟨[], [], 0⟩

end Viva

